import Mathlib

/-!
Shallow embedding of the fe-inbound-panel backend core
(`backend/services/websocket_manager.py`, `backend/services/call_service.py`,
`backend/services/sentiment_service.py`, `backend/routers/websockets.py`,
`backend/routers/webhooks.py`) together with proofs of the frozen claims.

Conventions of the embedding:
* Python `Optional[str]` fields become `Option String`; Python truthiness
  (`if x:`) on such fields is the `truthy` function below (`None` and `""`
  are falsy).
* `datetime` values become `Int` (seconds); ISO-8601 parsing
  (`datetime.fromisoformat(s.replace("Z", "+00:00"))`, which may raise) is an
  explicit parameter `parseTs : String → Option Int` of the environment,
  mirroring that parsing is an external library call.
* External collaborators (recording download/upload, user-name resolution)
  are parameters of the environment, as the spec treats them.
* The database session is an explicit state `DB`: a list of `Call` rows keyed
  by primary key `id` plus an append-only list of `CallStatusEvent` rows.
-/

namespace FEPanel

/-! String primitives.  Lean's own `String.trim`, `String.toLower`,
`String.splitOn` and `String.isPrefixOf` are defined by well-founded
recursion over byte positions and do not reduce inside the kernel, so the
embedding re-implements the handful of Python string operations it needs by
structural recursion over the character list `String.data`. -/

/-- Pack a character list back into a string. -/
def ofChars (l : List Char) : String := ⟨l⟩

/-- `s == ""` as the source's truthiness tests see it. -/
def strIsEmpty (s : String) : Bool := s.data.isEmpty

/-- Python `s.lower()` (ASCII case mapping, which covers every phrase bank
and role literal of the source). -/
def toLowerStr (s : String) : String := ⟨s.data.map Char.toLower⟩

/-- Python `s.strip()`: drop leading and trailing whitespace. -/
def trimStr (s : String) : String :=
  ⟨((s.data.dropWhile Char.isWhitespace).reverse.dropWhile Char.isWhitespace).reverse⟩

/-- Python truthiness of an `Optional[str]`: `None` and `""` are falsy. -/
def truthy : Option String → Bool
  | none => false
  | some s => !strIsEmpty s

/-- Python `a or b` on two `Optional[str]` values: `a` if truthy, else `b`. -/
def pyOrOpt (a b : Option String) : Option String :=
  if truthy a then a else b

/-- Python `a or d` where `a : Optional[str]` and `d` is a string literal. -/
def pyOrStr (a : Option String) (d : String) : String :=
  match a with
  | some s => if strIsEmpty s then d else s
  | none => d

/-- Python truthiness of an `Optional` number: `None` and `0` are falsy. -/
def numTruthy : Option Int → Bool
  | none => false
  | some n => n != 0

/-- Python `a or b` on two optional numbers (`0` is falsy). -/
def pyOrNum (a b : Option Int) : Option Int :=
  if numTruthy a then a else b

/-- Does `p` occur as a contiguous run inside `s`? -/
def listInfix (p : List Char) : List Char → Bool
  | [] => p.isEmpty
  | c :: rest => List.isPrefixOf p (c :: rest) || listInfix p rest

/-- Python `p in msg` substring test. -/
def strContains (msg p : String) : Bool :=
  listInfix p.toList msg.toList

/-! ## BroadcastManager (`backend/services/websocket_manager.py`)

A live connection is modelled by an opaque handle (`Nat`); the registry
`dashboard_clients` maps handles to their metadata dict. -/

/-- The metadata dict stored per registered dashboard connection:
`{"user_id": ..., "role": ..., "tenant_id": ...}`. -/
structure ConnMeta where
  user_id : Option String
  role : Option String
  tenant_id : Option String
deriving DecidableEq, Repr

/-- `client_role = meta.get("role") or "user"` (line 72 of the manager). -/
def clientRole (meta : ConnMeta) : String :=
  pyOrStr meta.role "user"

/-- The user/role filter of `broadcast_dashboard` (lines 86-99): with no
target user everyone passes; with a target user, admins and the target user
pass. `client_user_id == user_id` compares an `Optional[str]` with the
(non-`None`) target, so a `None` user id never matches. -/
def userCheck (user_id : Option String) (meta : ConnMeta) : Bool :=
  match user_id with
  | none => true
  | some uid => clientRole meta == "admin" || meta.user_id == some uid

/-- The per-connection decision of `BroadcastManager.broadcast_dashboard`
(lines 70-99): tenant isolation guard, then the user/role filter. -/
def shouldSend (msgTenant : Option String) (user_id : Option String)
    (meta : ConnMeta) : Bool :=
  if truthy msgTenant && truthy meta.tenant_id && (msgTenant != meta.tenant_id) then
    false
  else
    userCheck user_id meta

/-- The connections `broadcast_dashboard` attempts to send the message to,
in registry iteration order: exactly those whose `should_send` is true. -/
def sendTargets (clients : List (Nat × ConnMeta)) (msgClientId user_id : Option String) :
    List (Nat × ConnMeta) :=
  clients.filter fun c => shouldSend msgClientId user_id c.2

/-- The connections that actually receive the message: send targets whose
`send_json` does not raise (`sendOk`). -/
def dashboardRecipients (clients : List (Nat × ConnMeta))
    (msgClientId user_id : Option String) (sendOk : Nat → Bool) :
    List (Nat × ConnMeta) :=
  (sendTargets clients msgClientId user_id).filter fun c => sendOk c.1

/-- `broadcast_dashboard`: returns the recipients and the registry after the
dead connections (send targets whose send failed) are unregistered. -/
def broadcast_dashboard (clients : List (Nat × ConnMeta))
    (msgClientId user_id : Option String) (sendOk : Nat → Bool) :
    List (Nat × ConnMeta) × List (Nat × ConnMeta) :=
  let dead := (sendTargets clients msgClientId user_id).filter fun c => !sendOk c.1
  (dashboardRecipients clients msgClientId user_id sendOk,
   clients.filter fun c => !(dead.any fun d => d.1 == c.1))

/-! ## SentimentService (`backend/services/sentiment_service.py`) -/

/-- The fixed positive-phrase bank `SentimentService.POSITIVE`. -/
def POSITIVE : List String :=
  ["yes", "yeah", "yep", "sure", "okay", "ok",
   "sounds good", "tell me more", "how much",
   "what does it cover", "i'm interested"]

/-- The fixed negative-phrase bank `SentimentService.NEGATIVE`. -/
def NEGATIVE : List String :=
  ["not interested", "stop calling", "don't call",
   "remove me", "hang up", "wrong number"]

/-- The fixed neutral-phrase bank `SentimentService.NEUTRAL`. -/
def NEUTRAL : List String :=
  ["maybe", "not sure", "uh", "uh huh", "hmm"]

/-- A regex word character (`\w` over the ASCII inputs at hand). -/
def isWordChar (c : Char) : Bool :=
  c.isAlphanum || c == '_'

/-- Does the word `w` occur at the current position with `\b` boundaries on
both sides? `prev` is the character just before the current position. -/
def boundaryMatchAt (prev : Option Char) (w : List Char) (s : List Char) : Bool :=
  List.isPrefixOf w s &&
  (match prev with
   | none => true
   | some c => !isWordChar c) &&
  (match s.drop w.length with
   | [] => true
   | c :: _ => !isWordChar c)

/-- Scan for a `\b w \b` occurrence anywhere in the remaining characters. -/
def boundarySearchFrom (w : List Char) : Option Char → List Char → Bool
  | prev, [] => boundaryMatchAt prev w []
  | prev, c :: rest =>
      boundaryMatchAt prev w (c :: rest) || boundarySearchFrom w (some c) rest

/-- `re.search(r"\b(w1|w2|...)\b", msg)` for a list of plain-word alternatives. -/
def wordSearch (ws : List String) (msg : String) : Bool :=
  ws.any fun w => boundarySearchFrom w.toList none msg.toList

/-- `SentimentService.ENGAGEMENT_PATTERNS`: each pattern paired with the
predicate its `re.search` computes on the lowercased message. -/
def ENGAGEMENT_PATTERNS : List (String × (String → Bool)) :=
  [("\\?", fun m => m.toList.contains '?'),
   ("\\b(cost|price|rate)\\b", fun m => wordSearch ["cost", "price", "rate"] m),
   ("\\b(coverage|cover)\\b", fun m => wordSearch ["coverage", "cover"] m),
   ("\\b(benefit|benefits)\\b", fun m => wordSearch ["benefit", "benefits"] m)]

/-- The categorized signal-hit lists of a sentiment state. -/
structure Signals where
  positive_hits : List String
  negative_hits : List String
  neutral_hits : List String
  engagement_hits : List String
deriving DecidableEq, Repr

/-- One element of a call's sentiment-state history.  `confidence` is kept in
`ℚ`; the source computes it in binary floating point (`round(x, 2)`), which a
shallow embedding cannot mirror exactly — no claim depends on its value. -/
structure SentimentState where
  score : Int
  sentiment : String
  confidence : ℚ
  user_message_count : Nat
  total_user_words : Nat
  signals : Signals
deriving DecidableEq, Repr

/-- The zero initial state built by `update_call_sentiment` when the history
is empty (lines 66-79 of the service). -/
def initialSentimentState : SentimentState :=
  { score := 0
    sentiment := "Not Enuf Data"
    confidence := 0
    user_message_count := 0
    total_user_words := 0
    signals := { positive_hits := [], negative_hits := [], neutral_hits := [], engagement_hits := [] } }

/-- Accumulator pass of `splitWS`: `acc` holds the current word reversed. -/
def splitWSAux : List Char → List Char → List (List Char)
  | acc, [] => if acc.isEmpty then [] else [acc.reverse]
  | acc, c :: rest =>
      if Char.isWhitespace c then
        if acc.isEmpty then splitWSAux [] rest
        else acc.reverse :: splitWSAux [] rest
      else splitWSAux (c :: acc) rest

/-- Python `msg.split()`: split on whitespace runs, dropping empty pieces. -/
def pySplitWS (s : String) : List String :=
  (splitWSAux [] s.data).map ofChars

/-- Rational stand-in for Python's `round(x, 2)` (the source rounds a float;
half-way behaviour differs but no claim depends on it). -/
def round2 (q : ℚ) : ℚ :=
  (⌊q * 100 + 1 / 2⌋ : ℚ) / 100

/-- `SentimentService._calculate_sentiment`: pure incremental scoring of one
user utterance on top of the prior cumulative state. -/
def _calculate_sentiment (state : SentimentState) (new_user_message : String) :
    SentimentState :=
  let msg := toLowerStr (trimStr new_user_message)
  let word_count := (pySplitWS msg).length
  let posHits := POSITIVE.filter fun p => strContains msg p
  let negHits := NEGATIVE.filter fun n => strContains msg n
  let neuHits := NEUTRAL.filter fun n => strContains msg n
  let engHits := (ENGAGEMENT_PATTERNS.filter fun pp => pp.2 msg).map Prod.fst
  let score := state.score + 2 * posHits.length - 4 * negHits.length + engHits.length
  let signals : Signals :=
    { positive_hits := state.signals.positive_hits ++ posHits
      negative_hits := state.signals.negative_hits ++ negHits
      neutral_hits := state.signals.neutral_hits ++ neuHits
      engagement_hits := state.signals.engagement_hits ++ engHits }
  let total_user_words := state.total_user_words + word_count
  let user_message_count := state.user_message_count + 1
  let sentiment :=
    if total_user_words < 5 then "Not Enuf Data"
    else if score ≥ 3 then "Positive"
    else if score ≤ -3 then "Negative"
    else "Neutral"
  let signal_strength : ℚ :=
    signals.positive_hits.length + signals.negative_hits.length +
      signals.engagement_hits.length
  let confidence : ℚ :=
    min (|(score : ℚ)| / 6) 1 * (6 / 10) +
    min (signal_strength / 4) 1 * (1 / 4) +
    min ((user_message_count : ℚ) / 4) 1 * (3 / 20)
  { score := score
    sentiment := sentiment
    confidence := round2 (min confidence 1)
    user_message_count := user_message_count
    total_user_words := total_user_words
    signals := signals }

/-! ## Data model (`backend/database/models.py`) -/

/-- The `Call` row.  The service layer also stores `sentiment`, `disposition`
and `sentiment_state` on the object, so they are part of the state here.
`summary` holds the dict `{"summary": summary_text}` as `some summaryText`. -/
structure Call where
  id : String
  client_id : String
  phone_number : Option String := none
  status : Option String := none
  started_at : Option Int := none
  ended_at : Option Int := none
  cost : Option Int := none
  user_id : Option String := none
  username : Option String := none
  duration : Option Int := none
  listen_url : Option String := none
  control_url : Option String := none
  live_transcript : Option String := none
  final_transcript : Option String := none
  recording_url : Option String := none
  summary : Option (Option String) := none
  sentiment : Option String := none
  disposition : Option String := none
  sentiment_state : List SentimentState := []
  created_at : Int := 0
  updated_at : Int := 0
deriving DecidableEq, Repr

/-- The append-only `CallStatusEvent` row (the raw JSON payload is carried
as an opaque string). -/
structure CallStatusEvent where
  call_id : String
  client_id : String
  user_id : Option String
  status : String
  payload : String
deriving DecidableEq, Repr

/-- The database session state: `Call` rows (keyed by `id`) and the
append-only event log. -/
structure DB where
  calls : List Call
  events : List CallStatusEvent
deriving DecidableEq, Repr

/-- `session.get(Call, call_id)`: primary-key lookup. -/
def DB.getCall (db : DB) (id : String) : Option Call :=
  db.calls.find? fun c => c.id == id

/-- Number of `Call` rows carrying a given id. -/
def DB.countCall (db : DB) (id : String) : Nat :=
  (db.calls.filter fun c => c.id == id).length

/-- Replace every row whose id matches `c'.id` by `c'`. -/
def replaceCall (calls : List Call) (c' : Call) : List Call :=
  calls.map fun x => if x.id == c'.id then c' else x

/-- Commit one handler's work: upsert the mutated call row and append the
audit event (the single atomic unit of §4.1). -/
def DB.commit (db : DB) (c' : Call) (ev : CallStatusEvent) : DB :=
  { calls := replaceCall db.calls c', events := db.events ++ [ev] }

/-! ## CallService (`backend/services/call_service.py`) -/

/-- The environment of external collaborators a handler runs against:
ISO-8601 timestamp parsing (`datetime.fromisoformat` after the `Z`
normalization; `none` = the parse raised), the best-effort user-name
resolution (`get_user_by_id` plus the username/display-name/email fallback
chain; `none` = lookup failed or produced nothing), whether the recording
download + upload succeeded, and the current time `now`. -/
structure Env where
  parseTs : String → Option Int
  resolveUsername : Option String
  recordingOk : Bool
  now : Int

/-- `CallService.get_or_create_call`: return the existing row or insert a
fresh one, stamping `updated_at := now` either way. -/
def get_or_create_call (db : DB) (client_id call_id : String) (now : Int) :
    Call × Bool × DB :=
  match db.getCall call_id with
  | some existing =>
      let c := { existing with updated_at := now }
      (c, false, { db with calls := replaceCall db.calls c })
  | none =>
      let c : Call := { id := call_id, client_id := client_id,
                        created_at := now, updated_at := now }
      (c, true, { db with calls := db.calls ++ [c] })

/-- The result dict a handler returns to the webhook route. -/
inductive HandlerResult where
  | ignored (error : String)
  | ok (kind : String) (call_id : String) (created : Bool)
deriving DecidableEq, Repr

/-- `if x:`-guarded overwrite of an optional field (never overwrite with an
empty/absent value). -/
def setIfTruthy (new : Option String) (old : Option String) : Option String :=
  if truthy new then new else old

/-- The `if started_at_str: try ... except` block: keep the old value unless
the new string is truthy and parses. -/
def parseTsIfTruthy (env : Env) (s : Option String) (old : Option Int) : Option Int :=
  match s with
  | some str =>
      if str.isEmpty then old
      else match env.parseTs str with
           | some t => some t
           | none => old
  | none => old

/-- The `if user_id: ...` block shared by the status and end-of-call
handlers: assign `user_id`, and fill `username` from the resolver when it is
still unset. -/
def applyUserId (env : Env) (user_id : Option String) (c : Call) : Call :=
  if truthy user_id then
    let c := { c with user_id := user_id }
    if !truthy c.username then
      if truthy env.resolveUsername then { c with username := env.resolveUsername } else c
    else c
  else c

/-- The parsed `status-update` message shape the handler reads. -/
structure StatusMessage where
  callId : Option String
  startedAt : Option String
  listenUrl : Option String
  controlUrl : Option String
  customerNumber : Option String
  status : Option String
deriving DecidableEq, Repr

/-- `CallService.handle_status_update` (result, new database). -/
def handle_status_update (env : Env) (client_id : String) (m : StatusMessage)
    (payload : String) (user_id : Option String) (db : DB) :
    HandlerResult × DB :=
  if !truthy m.callId then (.ignored "missing call.id", db)
  else
    let call_id := m.callId.getD ""
    let goc := get_or_create_call db client_id call_id env.now
    let call := goc.1
    let created := goc.2.1
    let db₁ := goc.2.2
    let c := { call with phone_number := setIfTruthy m.customerNumber call.phone_number }
    let c := { c with listen_url := setIfTruthy m.listenUrl c.listen_url }
    let c := { c with control_url := setIfTruthy m.controlUrl c.control_url }
    let c := { c with status := setIfTruthy m.status c.status }
    let c := { c with started_at := parseTsIfTruthy env m.startedAt c.started_at }
    let c := applyUserId env user_id c
    let c := { c with updated_at := env.now }
    let ev : CallStatusEvent :=
      { call_id := c.id, client_id := client_id, user_id := user_id,
        status := "status-update: " ++ pyOrStr m.status "unknown", payload := payload }
    (.ok "status-update" c.id created, db₁.commit c ev)

/-- `lines = s.splitlines(); lines[-1] if lines else ""` for `\n`-separated
text (the only line separator these transcripts contain): the text after the
last newline, except that Python's `splitlines` produces no final empty line
for a trailing newline, so one trailing newline is ignored. -/
def lastLine (s : String) : String :=
  let r := s.data.reverse
  let r := match r with
           | '\n' :: rest => rest
           | _ => r
  ⟨(r.takeWhile fun c => c ≠ '\n').reverse⟩

/-- The speaker-role prefix chosen for a fragment (lines 211-216). -/
def roleMark (role : String) : String :=
  if role == "assistant" then "AI: "
  else if role == "user" then "User: "
  else ""

/-- The role the last transcript line's prefix indicates (lines 230-235):
`none` when the line carries neither prefix. -/
def lastRoleOf (line : String) : Option String :=
  if List.isPrefixOf "AI: ".data line.data then some "assistant"
  else if List.isPrefixOf "User: ".data line.data then some "user"
  else none

/-- The append logic of `handle_transcript_update` (lines 226-251): from the
prior live transcript, the lowercased role and the raw fragment, produce the
new live transcript and the appended chunk (`transcript_text`; `none` when
nothing was appended). -/
def mergeFragment (live : Option String) (role : String) (rawText : Option String) :
    Option String × Option String :=
  if truthy rawText then
    let raw := rawText.getD ""
    if truthy live then
      let l := live.getD ""
      if lastRoleOf (lastLine l) == some role then
        (some (l ++ raw), some raw)
      else
        let chunk := trimStr (roleMark role ++ raw)
        (some (l ++ "\n" ++ chunk), some chunk)
    else
      let chunk := trimStr (roleMark role ++ raw)
      (some chunk, some chunk)
  else
    (live, none)

/-- The parsed `transcript` message shape the handler reads. -/
structure TranscriptMessage where
  callId : Option String
  transcript : Option String
  role : Option String
deriving DecidableEq, Repr

/-- Everything observable `handle_transcript_update` does: its return value,
the database it leaves behind, the transcript broadcast it emits (`append` /
`fullTranscript`), whether the supplementary first-chunk dashboard broadcast
fired, and the list of `SentimentService.update_call_sentiment` invocations
it performs (the source performs none). -/
structure TranscriptOutcome where
  result : HandlerResult
  db : DB
  append : Option String
  fullTranscript : Option String
  firstChunkBroadcast : Bool
  sentimentCalls : List (String × String)
deriving Repr

/-- `CallService.handle_transcript_update`. -/
def handle_transcript_update (env : Env) (client_id : String)
    (m : TranscriptMessage) (payload : String) (user_id : Option String)
    (db : DB) : TranscriptOutcome :=
  if !truthy m.callId then
    { result := .ignored "missing call.id", db := db, append := none,
      fullTranscript := none, firstChunkBroadcast := false, sentimentCalls := [] }
  else
    let call_id := m.callId.getD ""
    let role := toLowerStr (pyOrStr m.role "")
    let goc := get_or_create_call db client_id call_id env.now
    let call := goc.1
    let created := goc.2.1
    let db₁ := goc.2.2
    let mf := mergeFragment call.live_transcript role m.transcript
    let chunk := mf.2
    let c := { call with live_transcript := mf.1 }
    let c := if truthy user_id then { c with user_id := user_id } else c
    let ev : CallStatusEvent :=
      { call_id := c.id, client_id := client_id, user_id := user_id,
        status := "transcript-update", payload := payload }
    let firstChunk :=
      truthy chunk && truthy c.live_transcript &&
        ((c.live_transcript.getD "").length == (chunk.getD "").length)
    { result := .ok "transcript" c.id created
      db := db₁.commit c ev
      append := chunk
      fullTranscript := c.live_transcript
      firstChunkBroadcast := firstChunk
      sentimentCalls := [] }

/-- One value of the `structuredOutputs` dict, in iteration order.
`isDict := false` models a non-dict value (skipped by the loop). -/
structure SOEntry where
  isDict : Bool
  name : Option String
  result : Option String
deriving DecidableEq, Repr

/-- `(output.get("name") or "").lower().strip()`. -/
def normName (e : SOEntry) : String :=
  trimStr (toLowerStr (pyOrStr e.name ""))

/-- Does the loop's disposition branch fire on this entry? -/
def dispMatch (e : SOEntry) : Bool :=
  e.isDict && (normName e == "call disposition" || strContains (normName e) "disposition")

/-- Does the loop's sentiment branch fire on this entry?  It is an `elif`,
so a disposition match shadows it. -/
def sentMatch (e : SOEntry) : Bool :=
  e.isDict && !(normName e == "call disposition" || strContains (normName e) "disposition") &&
    (normName e == "customer sentiment" || strContains (normName e) "sentiment")

/-- One iteration of the extraction loop: the `(disposition, sentiment)`
accumulator updated by one `structuredOutputs` value. -/
def soStep (acc : Option String × Option String) (e : SOEntry) :
    Option String × Option String :=
  if !e.isDict then acc
  else if normName e == "call disposition" || strContains (normName e) "disposition" then
    (e.result, acc.2)
  else if normName e == "customer sentiment" || strContains (normName e) "sentiment" then
    (acc.1, e.result)
  else acc

/-- The extraction loop over `structuredOutputs.values()` (lines 428-443 of
`call_service.py`): returns the final `(disposition, sentiment)` pair of the
two local variables. -/
def extractLabels (entries : List SOEntry) : Option String × Option String :=
  entries.foldl soStep (none, none)

/-- The last entry of a list satisfying `p`. -/
def lastMatch (p : SOEntry → Bool) : List SOEntry → Option SOEntry
  | [] => none
  | e :: es =>
      match lastMatch p es with
      | some r => some r
      | none => if p e then some e else none

/-- The parsed `end-of-call-report` message shape the handler reads. -/
structure EOCMessage where
  callId : Option String
  customerNumber : Option String
  listenUrl : Option String
  controlUrl : Option String
  transcript : Option String
  artifactTranscript : Option String
  recordingUrl : Option String
  artifactRecordingUrl : Option String
  summary : Option String
  analysisSummary : Option String
  cost : Option Int
  startedAt : Option String
  endedAt : Option String
  durationSeconds : Option Int
  analysisDurationSeconds : Option Int
  structuredOutputs : List SOEntry
deriving DecidableEq, Repr

/-- The field mutations `handle_end_of_call_report` applies to the call row
(lines 345-490 of `call_service.py`).  The recording download/upload is the
external collaborator `env.recordingOk`; on success the stored reference is
the filename `call_id ++ ".mp3"`. -/
def eocCallUpdate (env : Env) (call_id : String) (m : EOCMessage)
    (user_id : Option String) (call : Call) : Call :=
  let c := { call with phone_number := setIfTruthy m.customerNumber call.phone_number }
    let c := { c with listen_url := setIfTruthy m.listenUrl c.listen_url }
    let c := { c with control_url := setIfTruthy m.controlUrl c.control_url }
    let c := { c with status := some "ended" }
    let final_transcript := pyOrOpt m.transcript m.artifactTranscript
    let original_recording_url := pyOrOpt m.recordingUrl m.artifactRecordingUrl
    let recording_url : Option String :=
      if truthy original_recording_url && env.recordingOk then some (call_id ++ ".mp3")
      else none
    let summary_text := pyOrOpt m.summary m.analysisSummary
    let c := { c with started_at := parseTsIfTruthy env m.startedAt c.started_at }
    let c := { c with ended_at := parseTsIfTruthy env m.endedAt c.ended_at }
    let c := { c with ended_at := some (c.ended_at.getD env.now) }
    let labels := extractLabels m.structuredOutputs
    let c := if truthy labels.2 then { c with sentiment := labels.2 } else c
    let c := if truthy labels.1 then { c with disposition := labels.1 } else c
    let c := match m.cost with
             | some v => { c with cost := some v }
             | none => c
    let c := if truthy final_transcript
             then { c with final_transcript := some (trimStr (final_transcript.getD "")) }
             else c
    let c := if truthy recording_url then { c with recording_url := recording_url } else c
    let c := { c with summary := some summary_text }
    let c := match pyOrNum m.durationSeconds m.analysisDurationSeconds with
             | some d => { c with duration := some d }
             | none =>
                 match c.started_at, c.ended_at with
                 | some s, some e => { c with duration := some (e - s) }
                 | _, _ => c
    let c := applyUserId env user_id c
    { c with updated_at := env.now }

/-- `CallService.handle_end_of_call_report` (result, new database). -/
def handle_end_of_call_report (env : Env) (client_id : String) (m : EOCMessage)
    (payload : String) (user_id : Option String) (db : DB) :
    HandlerResult × DB :=
  if !truthy m.callId then (.ignored "missing call.id", db)
  else
    let call_id := m.callId.getD ""
    let goc := get_or_create_call db client_id call_id env.now
    let c := eocCallUpdate env call_id m user_id goc.1
    let ev : CallStatusEvent :=
      { call_id := c.id, client_id := client_id, user_id := user_id,
        status := "end-of-call-report", payload := payload }
    (.ok "end-of-call-report" c.id goc.2.1, goc.2.2.commit c ev)

/-- The parsed generic-event message shape (`handle_generic_event` reads a
few aliased keys). -/
structure GenericMessage where
  callId : Option String
  phoneNumber : Option String
  fromNumber : Option String
  listenUrlCamel : Option String
  listenUrlSnake : Option String
  controlUrlCamel : Option String
  controlUrlSnake : Option String
  status : Option String
  msgType : Option String
deriving DecidableEq, Repr

/-- `CallService.handle_generic_event`. -/
def handle_generic_event (env : Env) (client_id : String) (m : GenericMessage)
    (payload : String) (user_id : Option String) (db : DB) :
    HandlerResult × DB :=
  if !truthy m.callId then (.ignored "missing call.id", db)
  else
    let call_id := m.callId.getD ""
    let goc := get_or_create_call db client_id call_id env.now
    let call := goc.1
    let created := goc.2.1
    let db₁ := goc.2.2
    let c := { call with phone_number :=
                 setIfTruthy (pyOrOpt m.phoneNumber m.fromNumber) call.phone_number }
    let c := { c with listen_url :=
                 setIfTruthy (pyOrOpt m.listenUrlCamel m.listenUrlSnake) c.listen_url }
    let c := { c with control_url :=
                 setIfTruthy (pyOrOpt m.controlUrlCamel m.controlUrlSnake) c.control_url }
    let ev : CallStatusEvent :=
      { call_id := c.id, client_id := client_id, user_id := user_id,
        status := pyOrStr m.status (pyOrStr m.msgType "generic"), payload := payload }
    (.ok "generic" c.id created, db₁.commit c ev)

/-- One inbound webhook event, as dispatched by `vprod_server_webhook`. -/
inductive Event where
  | statusUpdate (m : StatusMessage) (payload : String) (user_id : Option String)
  | transcript (m : TranscriptMessage) (payload : String) (user_id : Option String)
  | endOfCall (m : EOCMessage) (payload : String) (user_id : Option String)
  | generic (m : GenericMessage) (payload : String) (user_id : Option String)

/-- The call identifier an event carries (`message.call.id`). -/
def Event.callId : Event → Option String
  | .statusUpdate m _ _ => m.callId
  | .transcript m _ _ => m.callId
  | .endOfCall m _ _ => m.callId
  | .generic m _ _ => m.callId

/-- Process one event through the matching `CallService` handler. -/
def processEvent (env : Env) (client_id : String) (e : Event) (db : DB) :
    HandlerResult × DB :=
  match e with
  | .statusUpdate m p u => handle_status_update env client_id m p u db
  | .transcript m p u =>
      let out := handle_transcript_update env client_id m p u db
      (out.result, out.db)
  | .endOfCall m p u => handle_end_of_call_report env client_id m p u db
  | .generic m p u => handle_generic_event env client_id m p u db

/-- Process a sequence of events in order. -/
def processEvents (env : Env) (client_id : String) (es : List Event) (db : DB) : DB :=
  es.foldl (fun d e => (processEvent env client_id e d).2) db

/-! ## Audio relay access control (`backend/routers/websockets.py`,
`listen_proxy_websocket`) -/

/-- The authenticated requester (`UserContext` from `dependencies/auth.py`). -/
structure UserCtx where
  id : String
  client_id : String
  role : String
deriving DecidableEq, Repr

/-- How the relay's Connecting phase ends.  `noListenUrl` and `accessDenied`
close the downstream socket immediately (close reasons "No listen URL found"
and "Access denied") — in both cases no upstream connection is attempted and
no frame is relayed; `connectUpstream url` proceeds to open the upstream
socket and relay frames. -/
inductive RelayOutcome where
  | noListenUrl
  | accessDenied
  | connectUpstream (url : String)
deriving DecidableEq, Repr

/-- The guard sequence of `listen_proxy_websocket` (lines 60-85): call
lookup / listen-url presence, then the tenant check, then the
ownership-unless-admin check, and only then the upstream connection. -/
def listen_proxy_decision (call? : Option Call) (u : UserCtx) : RelayOutcome :=
  match call? with
  | none => .noListenUrl
  | some call =>
      if !truthy call.listen_url then .noListenUrl
      else if call.client_id ≠ u.client_id then .accessDenied
      else if u.role ≠ "admin" ∧ call.user_id ≠ some u.id then .accessDenied
      else .connectUpstream (call.listen_url.getD "")

/-! ## Supporting lemmas -/

theorem truthy_none : truthy none = false := rfl

theorem truthy_some_iff {s : String} : truthy (some s) = true ↔ s ≠ "" := by
  obtain ⟨l⟩ := s
  show (!l.isEmpty) = true ↔ ({ data := l } : String) ≠ ""
  cases l with
  | nil =>
      constructor
      · intro h
        cases h
      · intro h
        exact absurd rfl h
  | cons c cs =>
      constructor
      · intro _ h
        have h2 : (c :: cs : List Char) = [] := congrArg String.data h
        exact List.cons_ne_nil c cs h2
      · intro _
        rfl

theorem truthy_some_of_ne {s : String} (h : s ≠ "") : truthy (some s) = true :=
  truthy_some_iff.mpr h

/-- Rows of `Call`s carrying a given id. -/
def countIn (calls : List Call) (id : String) : Nat :=
  (calls.filter fun c => c.id == id).length

theorem countCall_eq_countIn (db : DB) (id : String) :
    db.countCall id = countIn db.calls id := rfl

theorem find?_replaceCall (calls : List Call) (c' : Call) (cid : String)
    (h : c'.id = cid) :
    (replaceCall calls c').find? (fun x => x.id == cid) =
      (calls.find? fun x => x.id == cid).map fun _ => c' := by
  induction calls with
  | nil => rfl
  | cons a rest ih =>
      by_cases ha : a.id = cid
      · have hac : (a.id == c'.id) = true := by simp [h, ha]
        simp [replaceCall, List.find?, hac, ha, h]
      · have hac : (a.id == c'.id) = false := by simp [h, ha]
        have ha' : (a.id == cid) = false := by simp [ha]
        simpa [replaceCall, List.find?, hac, ha'] using ih

theorem countIn_replaceCall (calls : List Call) (c' : Call) (cid : String) :
    countIn (replaceCall calls c') cid = countIn calls cid := by
  induction calls with
  | nil => rfl
  | cons a rest ih =>
      have hkey : (if a.id = c'.id then c' else a).id = a.id := by
        by_cases hac : a.id = c'.id <;> simp [hac]
      by_cases ha : a.id = cid <;>
        simp_all [replaceCall, countIn, List.filter_cons, hkey, ha]

theorem countIn_append_one (calls : List Call) (c : Call) (cid : String) :
    countIn (calls ++ [c]) cid =
      countIn calls cid + (if c.id = cid then 1 else 0) := by
  by_cases h : c.id = cid <;> simp [countIn, List.filter_append, h]

theorem find?_eq_none_iff_countIn (calls : List Call) (cid : String) :
    (calls.find? fun x => x.id == cid) = none ↔ countIn calls cid = 0 := by
  induction calls with
  | nil => simp [countIn]
  | cons a rest ih =>
      by_cases ha : a.id = cid
      · simp [List.find?, countIn, ha]
      · have ha' : (a.id == cid) = false := by simp [ha]
        simp only [List.find?, countIn, List.filter_cons, ha', Bool.false_eq_true,
          if_false] at ih ⊢
        exact ih

/-- `find?` success pins the found row's id. -/
theorem find?_id_eq {calls : List Call} {cid : String} {c : Call}
    (h : (calls.find? fun x => x.id == cid) = some c) : c.id = cid := by
  have := List.find?_some h
  simpa using this


theorem getCall_commit (db : DB) (c' : Call) (ev : CallStatusEvent) (cid : String)
    (h : c'.id = cid) :
    (db.commit c' ev).getCall cid = (db.getCall cid).map fun _ => c' := by
  simp only [DB.commit, DB.getCall]
  exact find?_replaceCall db.calls c' cid h

theorem getCall_goc (db : DB) (client_id cid : String) (now : Int) :
    ((get_or_create_call db client_id cid now).2.2).getCall cid
        = some (get_or_create_call db client_id cid now).1 ∧
      (get_or_create_call db client_id cid now).1.id = cid := by
  unfold get_or_create_call
  cases h : db.getCall cid with
  | some c =>
      have hid : c.id = cid := find?_id_eq h
      have hid' : ({ c with updated_at := now } : Call).id = cid := hid
      refine ⟨?_, hid'⟩
      show (replaceCall db.calls { c with updated_at := now }).find? (fun x => x.id == cid)
            = some { c with updated_at := now }
      rw [find?_replaceCall db.calls { c with updated_at := now } cid hid']
      rw [show db.calls.find? (fun x => x.id == cid) = some c from h]
      rfl
  | none =>
      refine ⟨?_, rfl⟩
      simp only [DB.getCall]
      rw [List.find?_append]
      rw [show db.calls.find? (fun x => x.id == cid) = none from h]
      simp

theorem goc_fst_of_found (db : DB) (client_id cid : String) (now : Int) (c : Call)
    (h : db.getCall cid = some c) :
    (get_or_create_call db client_id cid now).1 = { c with updated_at := now } := by
  unfold get_or_create_call
  rw [h]

theorem goc_fst_ended_at (db : DB) (client_id cid : String) (now : Int) :
    (get_or_create_call db client_id cid now).1.ended_at
      = (db.getCall cid).bind Call.ended_at := by
  unfold get_or_create_call
  cases h : db.getCall cid <;> simp

theorem mergeFragment_not_truthy (live : Option String) (role : String)
    (rawText : Option String) (h : truthy rawText = false) :
    mergeFragment live role rawText = (live, none) := by
  unfold mergeFragment
  rw [h]
  rfl

theorem applyUserId_id (env : Env) (u : Option String) (c : Call) :
    (applyUserId env u c).id = c.id := by
  unfold applyUserId
  cases h : truthy u <;> simp [h, apply_ite Call.id]

theorem applyUserId_ended_at (env : Env) (u : Option String) (c : Call) :
    (applyUserId env u c).ended_at = c.ended_at := by
  unfold applyUserId
  cases h : truthy u <;> simp [h, apply_ite Call.ended_at]

theorem eocCallUpdate_id (env : Env) (call_id : String) (m : EOCMessage)
    (u : Option String) (c : Call) :
    (eocCallUpdate env call_id m u c).id = c.id := by
  unfold eocCallUpdate
  cases m.cost <;>
    cases pyOrNum m.durationSeconds m.analysisDurationSeconds <;>
      simp [applyUserId_id, apply_ite Call.id] <;>
        (try split) <;> simp [applyUserId_id]

theorem eocCallUpdate_ended_at (env : Env) (call_id : String) (m : EOCMessage)
    (u : Option String) (c : Call) :
    (eocCallUpdate env call_id m u c).ended_at
      = some ((parseTsIfTruthy env m.endedAt c.ended_at).getD env.now) := by
  unfold eocCallUpdate
  cases m.cost <;>
    cases pyOrNum m.durationSeconds m.analysisDurationSeconds <;>
      simp [applyUserId_ended_at, apply_ite Call.ended_at] <;>
        (try split) <;> simp [applyUserId_ended_at]

theorem countCall_commit (db : DB) (c' : Call) (ev : CallStatusEvent) (cid : String) :
    (db.commit c' ev).countCall cid = db.countCall cid := by
  simp only [DB.commit, DB.countCall]
  exact countIn_replaceCall db.calls c' cid

theorem countCall_goc (db : DB) (client_id cid : String) (now : Int) :
    ((get_or_create_call db client_id cid now).2.2).countCall cid
      = max 1 (db.countCall cid) := by
  unfold get_or_create_call
  cases h : db.getCall cid with
  | some c =>
      show countIn (replaceCall db.calls _) cid = _
      rw [countIn_replaceCall]
      have h1 : countIn db.calls cid ≠ 0 := by
        intro h0
        rw [← find?_eq_none_iff_countIn] at h0
        rw [show db.calls.find? (fun x => x.id == cid) = some c from h] at h0
        cases h0
      show countIn db.calls cid = max 1 (countIn db.calls cid)
      omega
  | none =>
      have h0 : countIn db.calls cid = 0 := by
        rw [← find?_eq_none_iff_countIn]
        exact h
      show countIn (db.calls ++ [_]) cid = _
      rw [countIn_append_one]
      show countIn db.calls cid + _ = max 1 (countIn db.calls cid)
      rw [h0]
      simp

theorem countCall_processEvent (env : Env) (client_id : String) (e : Event)
    (db : DB) (cid : String) (hcid : e.callId = some cid) (hne : cid ≠ "") :
    ((processEvent env client_id e db).2).countCall cid = max 1 (db.countCall cid) := by
  have htc : truthy (some cid) = true := truthy_some_of_ne hne
  cases e <;>
    simp only [Event.callId] at hcid <;>
    simp only [processEvent, handle_status_update, handle_transcript_update,
      handle_end_of_call_report, handle_generic_event, hcid, htc, Bool.not_true,
      Bool.false_eq_true, if_false, Option.getD_some] <;>
    rw [countCall_commit, countCall_goc]

theorem countCall_processEvents_stable (env : Env) (client_id cid : String)
    (hne : cid ≠ "") :
    ∀ (es : List Event) (db : DB), (∀ e ∈ es, e.callId = some cid) →
      db.countCall cid = 1 →
      (processEvents env client_id es db).countCall cid = 1 := by
  intro es
  induction es with
  | nil =>
      intro db _ h1
      simpa [processEvents] using h1
  | cons e rest ih =>
      intro db hall h1
      show (processEvents env client_id rest
        ((processEvent env client_id e db).2)).countCall cid = 1
      apply ih
      · intro e' he'
        exact hall e' (List.mem_cons_of_mem _ he')
      · rw [countCall_processEvent env client_id e db cid
          (hall e (List.mem_cons_self e rest)) hne, h1]
        omega

/-! ## Claims -/

/-- C1: when `broadcast_dashboard` delivers an event carrying tenant id `A`
(a truthy `clientId`, hence `A ≠ ""`), every registered connection whose
registered tenant id is a different tenant `B` is skipped — its `should_send`
is false, it is not among the connections the message is sent to, and hence
not among the recipients — for every role and every user-id combination.
Consequently the messages delivered to tenant-`B` connections are the same
as if the tenant-`A` event had never been broadcast. -/
theorem c1_tenant_isolation
    (clients : List (Nat × ConnMeta)) (sendOk : Nat → Bool)
    (A B : String) (uid : Option String) (hnd : Nat) (meta : ConnMeta)
    (hA : A ≠ "") (hB : B ≠ "") (hAB : A ≠ B)
    (hmem : (hnd, meta) ∈ clients) (htenant : meta.tenant_id = some B) :
    shouldSend (some A) uid meta = false ∧
      (hnd, meta) ∉ sendTargets clients (some A) uid ∧
      (hnd, meta) ∉ dashboardRecipients clients (some A) uid sendOk := by
  have hA' := truthy_some_of_ne hA
  have hB' := truthy_some_of_ne hB
  have hs : shouldSend (some A) uid meta = false := by
    have hne : ((some A : Option String) != some B) = true := by
      simp [bne_iff_ne]
      exact hAB
    simp [shouldSend, htenant, hA', hB', hne]
  refine ⟨hs, ?_, ?_⟩
  · intro hmemT
    have hTrue := (List.mem_filter.mp hmemT).2
    rw [hs] at hTrue
    cases hTrue
  · intro hmemR
    have hmemT := (List.mem_filter.mp hmemR).1
    have hTrue := (List.mem_filter.mp hmemT).2
    rw [hs] at hTrue
    cases hTrue

/-- Witness for C1 at a concrete registry: one admin connection of tenant
`"b"` never receives a tenant-`"a"` event. -/
theorem c1_tenant_isolation_witness :
    shouldSend (some "a") (some "u") ⟨some "u", some "admin", some "b"⟩ = false ∧
      ((0 : Nat), (⟨some "u", some "admin", some "b"⟩ : ConnMeta)) ∉
        sendTargets [((0 : Nat), ⟨some "u", some "admin", some "b"⟩)] (some "a") (some "u") ∧
      ((0 : Nat), (⟨some "u", some "admin", some "b"⟩ : ConnMeta)) ∉
        dashboardRecipients [((0 : Nat), ⟨some "u", some "admin", some "b"⟩)]
          (some "a") (some "u") (fun _ => true) :=
  c1_tenant_isolation [((0 : Nat), ⟨some "u", some "admin", some "b"⟩)] (fun _ => true)
    "a" "b" (some "u") 0 ⟨some "u", some "admin", some "b"⟩
    (by decide) (by decide) (by decide) (by simp) rfl

/-- C10: the tenant-isolation guard of `broadcast_dashboard` only applies
when both the message's `clientId` and the connection's registered tenant id
are present: if either is `None`, the decision degenerates to the user/role
filter alone, so a `None`-tenant connection receives events of every tenant
and a `clientId`-less message reaches connections of every tenant (subject,
in both cases, only to the user/role filter and send success). -/
theorem c10_tenant_check_needs_both
    (clients : List (Nat × ConnMeta)) (sendOk : Nat → Bool)
    (msgT uid : Option String) (hnd : Nat) (meta : ConnMeta)
    (hcase : meta.tenant_id = none ∨ msgT = none) :
    shouldSend msgT uid meta = userCheck uid meta ∧
      ((hnd, meta) ∈ dashboardRecipients clients msgT uid sendOk ↔
        (hnd, meta) ∈ clients ∧ userCheck uid meta = true ∧ sendOk hnd = true) := by
  have hs : shouldSend msgT uid meta = userCheck uid meta := by
    rcases hcase with hc | hc <;> simp [shouldSend, hc, truthy]
  refine ⟨hs, ?_⟩
  simp only [dashboardRecipients, sendTargets, List.mem_filter, hs]
  tauto

/-- Witness for C10: a connection registered without a tenant id receives a
foreign-tenant broadcast when the user/role filter passes. -/
theorem c10_tenant_check_needs_both_witness :
    (shouldSend (some "a") (some "u") ⟨some "u", some "user", none⟩ =
        userCheck (some "u") ⟨some "u", some "user", none⟩) ∧
      (((0 : Nat), (⟨some "u", some "user", none⟩ : ConnMeta)) ∈
          dashboardRecipients [((0 : Nat), ⟨some "u", some "user", none⟩)]
            (some "a") (some "u") (fun _ => true) ↔
        ((0 : Nat), (⟨some "u", some "user", none⟩ : ConnMeta)) ∈
            [((0 : Nat), (⟨some "u", some "user", none⟩ : ConnMeta))] ∧
          userCheck (some "u") ⟨some "u", some "user", none⟩ = true ∧
          (fun _ : Nat => true) 0 = true) :=
  c10_tenant_check_needs_both [((0 : Nat), ⟨some "u", some "user", none⟩)]
    (fun _ => true) (some "a") (some "u") 0 ⟨some "u", some "user", none⟩ (Or.inl rfl)

/-- C2: `handle_transcript_update` never invokes
`SentimentService.update_call_sentiment` — for every inbound transcript
event its list of sentiment-scorer invocations is empty, in particular also
when a user utterance completes (the claim requires exactly one invocation
there; the repository contains no call site of `update_call_sentiment` at
all). -/
theorem c2_no_sentiment_invocation (env : Env) (client_id : String)
    (m : TranscriptMessage) (payload : String) (user_id : Option String)
    (db : DB) :
    (handle_transcript_update env client_id m payload user_id db).sentimentCalls
      = [] := by
  cases ht : truthy m.callId <;> simp [handle_transcript_update, ht]

theorem soStep_eq (acc : Option String × Option String) (e : SOEntry) :
    soStep acc e = (if dispMatch e then e.result else acc.1,
                    if sentMatch e then e.result else acc.2) := by
  unfold soStep dispMatch sentMatch
  cases hd : e.isDict <;>
    cases h1 : (normName e == "call disposition" || strContains (normName e) "disposition") <;>
      cases h2 : (normName e == "customer sentiment" || strContains (normName e) "sentiment") <;>
        simp [hd, h1, h2]

theorem extract_foldl (entries : List SOEntry) :
    ∀ acc, entries.foldl soStep acc =
      ((lastMatch dispMatch entries).elim acc.1 SOEntry.result,
       (lastMatch sentMatch entries).elim acc.2 SOEntry.result) := by
  induction entries with
  | nil => intro acc; simp [lastMatch]
  | cons e es ih =>
      intro acc
      rw [List.foldl_cons, ih (soStep acc e), soStep_eq]
      cases hd : lastMatch dispMatch es <;> cases hs : lastMatch sentMatch es <;>
        by_cases h1 : dispMatch e <;> by_cases h2 : sentMatch e <;>
          simp [lastMatch, hd, hs, h1, h2]

/-- C4 counterexample: two dict entries whose names both match the
disposition category by case-insensitive substring, with distinct results
"X" (first, in iteration order) and "Y" (second).  The loop extracts the
LAST match "Y", not the first match "X" as the claim states. -/
theorem c4_first_match_counterexample :
    extractLabels [⟨true, some "Disposition", some "X"⟩,
                   ⟨true, some "disposition 2", some "Y"⟩] = (some "Y", none) ∧
      (some "Y" : Option String) ≠ some "X" := by
  constructor
  · decide
  · decide

/-- C4 amended: when two or more `structuredOutputs` entries match the same
category, the extracted label for that category is the LAST match in
iteration order — each later match overwrites the already-found value — and
it is absent exactly when no entry matches.  (`dispMatch`/`sentMatch` are the
loop's two guards; the sentiment guard is an `elif`, shadowed by a
disposition match.) -/
theorem c4_last_match_wins (entries : List SOEntry) :
    extractLabels entries =
      ((lastMatch dispMatch entries).elim none SOEntry.result,
       (lastMatch sentMatch entries).elim none SOEntry.result) := by
  have h := extract_foldl entries (none, none)
  simpa [extractLabels] using h

/-- C5 counterexample: scoring the single utterance
"yes, how much does it cost?" from the zero state yields score 6, not the
claimed 2 + 1 = 3: the utterance contains TWO positive phrases of the bank
("yes" and "how much", +2 each) and two engagement patterns
(`\?` and `\b(cost|price|rate)\b`, +1 each). -/
theorem c5_score_counterexample :
    (_calculate_sentiment initialSentimentState "yes, how much does it cost?").score = 6 ∧
      (_calculate_sentiment initialSentimentState "yes, how much does it cost?").score ≠ 3 := by
  constructor
  · decide
  · decide

/-- C5 amended: the utterance scores 2 + 2 + 1 + 1 = 6 — positive-phrase
hits "yes" and "how much" and engagement hits `\?` and
`\b(cost|price|rate)\b` — and the resulting label is the positive one
(spelled "Positive" by the source). -/
theorem c5_single_utterance_score :
    (_calculate_sentiment initialSentimentState "yes, how much does it cost?").score = 6 ∧
      (_calculate_sentiment initialSentimentState "yes, how much does it cost?").sentiment
          = "Positive" ∧
      (_calculate_sentiment initialSentimentState
            "yes, how much does it cost?").signals.positive_hits = ["yes", "how much"] ∧
      (_calculate_sentiment initialSentimentState
            "yes, how much does it cost?").signals.engagement_hits
          = ["\\?", "\\b(cost|price|rate)\\b"] := by
  refine ⟨by decide, by decide, by decide, by decide⟩

/-- C3 counterexample: a call whose ended-at is already set to 100 receives
an end-of-call report whose `endedAt` parses to the EARLIER time 50 (current
time 200).  The handler moves ended-at back to 50: a parseable provider
`endedAt` overwrites unconditionally (`call.ended_at = parsed`, then
`call.ended_at = call.ended_at or now`), so the claim's "never moves it to an
earlier value" is false (and so would be "later of provider timestamp and
now" for the unset case, which would give 200, not 50). -/
theorem c3_ended_at_counterexample :
    (((handle_end_of_call_report
            ⟨fun s => if s == "T50" then some 50 else none, none, false, 200⟩
            "t1"
            ⟨some "c1", none, none, none, none, none, none, none, none, none,
              none, none, some "T50", none, none, []⟩
            "p" none
            ⟨[{ id := "c1", client_id := "t1", ended_at := some 100 }],
              []⟩).2.getCall "c1").bind Call.ended_at = some 50) ∧
      (50 : Int) < 100 := by
  constructor
  · decide
  · decide

/-- C3 amended: after an end-of-call report the call's ended-at is always
set, and equals (1) the parsed provider `endedAt` when one is supplied,
truthy and parseable — overwriting any prior value, possibly with an earlier
one; otherwise (2) the prior ended-at when that was set; otherwise (3) the
current time.  (`parseTsIfTruthy` is exactly that three-way policy; ended-at
is never cleared since the result is always `some`.) -/
theorem c3_ended_at_policy (env : Env) (client_id : String) (m : EOCMessage)
    (payload : String) (user_id : Option String) (db : DB) (cid : String)
    (hcid : m.callId = some cid) (hne : cid ≠ "") :
    ((handle_end_of_call_report env client_id m payload user_id db).2.getCall
          cid).bind Call.ended_at
      = some ((parseTsIfTruthy env m.endedAt
          ((db.getCall cid).bind Call.ended_at)).getD env.now) := by
  have htc : truthy (some cid) = true := truthy_some_of_ne hne
  obtain ⟨hgoc, hid⟩ := getCall_goc db client_id cid env.now
  simp only [handle_end_of_call_report, hcid, htc, Bool.not_true,
    Bool.false_eq_true, if_false, Option.getD_some]
  rw [getCall_commit _ _ _ cid (by rw [eocCallUpdate_id]; exact hid), hgoc]
  simp only [Option.map_some', Option.some_bind, eocCallUpdate_ended_at]
  rw [goc_fst_ended_at]

/-- Witness for C3 at a concrete report: provider `endedAt` parses to 50,
prior ended-at unset, current time 200 — the stored ended-at becomes 50. -/
theorem c3_ended_at_policy_witness :
    ((handle_end_of_call_report
          ⟨fun s => if s == "T50" then some 50 else none, none, false, 200⟩
          "t1"
          ⟨some "c1", none, none, none, none, none, none, none, none, none,
            none, none, some "T50", none, none, []⟩
          "p" none
          ⟨[{ id := "c1", client_id := "t1" }], []⟩).2.getCall "c1").bind
        Call.ended_at = some 50 :=
  c3_ended_at_policy
    ⟨fun s => if s == "T50" then some 50 else none, none, false, 200⟩
    "t1"
    ⟨some "c1", none, none, none, none, none, none, none, none, none,
      none, none, some "T50", none, none, []⟩
    "p" none ⟨[{ id := "c1", client_id := "t1" }], []⟩ "c1" rfl (by decide)

/-- C6 counterexample: a whitespace-only fragment `" "` (truthy in Python)
arriving for a call whose live transcript ends in a same-role line IS
appended: the live transcript changes from "User: Hi" to "User: Hi " and the
appended chunk `" "` is broadcast. -/
theorem c6_whitespace_counterexample :
    (handle_transcript_update ⟨fun _ => none, none, false, 0⟩ "t1"
          ⟨some "c1", some " ", some "user"⟩ "p" none
          ⟨[{ id := "c1", client_id := "t1", live_transcript := some "User: Hi" }],
            []⟩).append = some " " ∧
      ((handle_transcript_update ⟨fun _ => none, none, false, 0⟩ "t1"
            ⟨some "c1", some " ", some "user"⟩ "p" none
            ⟨[{ id := "c1", client_id := "t1", live_transcript := some "User: Hi" }],
              []⟩).db.getCall "c1").map Call.live_transcript
          = some (some "User: Hi ") ∧
      (some "User: Hi " : Option String) ≠ some "User: Hi" := by
  refine ⟨by decide, by decide, by decide⟩

/-- C6 amended: only a fragment that is absent or the EMPTY string (falsy in
Python) leaves the call's live transcript unchanged and produces no appended
chunk; whitespace-only non-empty fragments are treated as text (see the
counterexample). -/
theorem c6_empty_fragment_no_change (env : Env) (client_id : String)
    (m : TranscriptMessage) (payload : String) (user_id : Option String)
    (db : DB) (cid : String) (c : Call)
    (hcid : m.callId = some cid) (hne : cid ≠ "")
    (hget : db.getCall cid = some c)
    (hfrag : m.transcript = none ∨ m.transcript = some "") :
    (handle_transcript_update env client_id m payload user_id db).append = none ∧
      ((handle_transcript_update env client_id m payload user_id db).db.getCall
            cid).map Call.live_transcript = some c.live_transcript := by
  have htc : truthy (some cid) = true := truthy_some_of_ne hne
  have hfr : truthy m.transcript = false := by
    rcases hfrag with h | h <;> rw [h] <;> rfl
  obtain ⟨hgoc, hid⟩ := getCall_goc db client_id cid env.now
  have hfst := goc_fst_of_found db client_id cid env.now c hget
  simp only [handle_transcript_update, hcid, htc, Bool.not_true,
    Bool.false_eq_true, if_false, Option.getD_some,
    mergeFragment_not_truthy _ _ _ hfr]
  refine ⟨trivial, ?_⟩
  cases hu : truthy user_id <;>
    simp only [hu, if_false, if_true, Bool.false_eq_true] <;>
    rw [getCall_commit _ _ _ cid (by simp [hid]), hgoc] <;>
    simp [hfst]

/-- Witness for C6 at a concrete empty-string fragment: nothing is appended
and the live transcript is preserved. -/
theorem c6_empty_fragment_no_change_witness :
    (handle_transcript_update ⟨fun _ => none, none, false, 0⟩ "t1"
          ⟨some "c1", some "", some "user"⟩ "p" none
          ⟨[{ id := "c1", client_id := "t1", live_transcript := some "User: Hi" }],
            []⟩).append = none ∧
      ((handle_transcript_update ⟨fun _ => none, none, false, 0⟩ "t1"
            ⟨some "c1", some "", some "user"⟩ "p" none
            ⟨[{ id := "c1", client_id := "t1", live_transcript := some "User: Hi" }],
              []⟩).db.getCall "c1").map Call.live_transcript
          = some (some "User: Hi") :=
  c6_empty_fragment_no_change ⟨fun _ => none, none, false, 0⟩ "t1"
    ⟨some "c1", some "", some "user"⟩ "p" none
    ⟨[{ id := "c1", client_id := "t1", live_transcript := some "User: Hi" }], []⟩
    "c1" { id := "c1", client_id := "t1", live_transcript := some "User: Hi" }
    rfl (by decide) (by decide) (Or.inr rfl)

/-- C7: for every event category (status-update, transcript,
end-of-call-report, generic), a message whose call identifier is missing or
empty makes the handler return the explicit ignored result
`{"ok": False, "error": "missing call.id"}` and leave the database — both
the `Call` rows and the `CallEvent` log — completely unchanged; nothing is
raised (the handlers are total functions). -/
theorem c7_missing_call_id (env : Env) (client_id : String) (e : Event)
    (db : DB) (h : truthy e.callId = false) :
    processEvent env client_id e db = (.ignored "missing call.id", db) := by
  cases e <;>
    simp_all [processEvent, handle_status_update, handle_transcript_update,
      handle_end_of_call_report, handle_generic_event, Event.callId]

/-- Witness for C7: a generic event without a call id is ignored and the
empty database stays empty. -/
theorem c7_missing_call_id_witness :
    processEvent ⟨fun _ => none, none, false, 0⟩ "t1"
        (.generic ⟨none, none, none, none, none, none, none, none, none⟩ "p" none)
        ⟨[], []⟩
      = (.ignored "missing call.id", ⟨[], []⟩) :=
  c7_missing_call_id ⟨fun _ => none, none, false, 0⟩ "t1"
    (.generic ⟨none, none, none, none, none, none, none, none, none⟩ "p" none)
    ⟨[], []⟩ rfl

/-- C8: (a) `get_or_create_call` on an id that already has a record returns
that record (only `updated_at` freshly stamped), reports `created = false`,
and leaves the number of rows with that id unchanged; (b) processing any
sequence of two or more events all referencing one call id against a
database holding at most one row for that id leaves exactly one `Call` row
for it. -/
theorem c8_single_record :
    (∀ (db : DB) (client_id cid : String) (now : Int) (c : Call),
        db.getCall cid = some c →
          (get_or_create_call db client_id cid now).1 = { c with updated_at := now } ∧
            (get_or_create_call db client_id cid now).2.1 = false ∧
            ((get_or_create_call db client_id cid now).2.2).countCall cid
              = db.countCall cid) ∧
      (∀ (env : Env) (client_id cid : String) (es : List Event) (db : DB),
          (∀ e ∈ es, e.callId = some cid) → cid ≠ "" → db.countCall cid ≤ 1 →
            2 ≤ es.length →
            (processEvents env client_id es db).countCall cid = 1) := by
  constructor
  · intro db client_id cid now c h
    refine ⟨goc_fst_of_found db client_id cid now c h, ?_, ?_⟩
    · unfold get_or_create_call
      rw [h]
    · unfold get_or_create_call
      rw [h]
      show countIn (replaceCall db.calls _) cid = countIn db.calls cid
      exact countIn_replaceCall _ _ _
  · intro env client_id cid es db hall hne hcount hlen
    cases es with
    | nil => simp at hlen
    | cons e rest =>
        show (processEvents env client_id rest
          ((processEvent env client_id e db).2)).countCall cid = 1
        apply countCall_processEvents_stable env client_id cid hne
        · intro e' he'
          exact hall e' (List.mem_cons_of_mem _ he')
        · rw [countCall_processEvent env client_id e db cid
            (hall e (List.mem_cons_self e rest)) hne]
          omega

/-- Witness for C8: a second generic event for call "c1" returns the
existing row, and two events starting from an empty database leave exactly
one row. -/
theorem c8_single_record_witness :
    ((get_or_create_call ⟨[{ id := "c1", client_id := "t1" }], []⟩ "t1" "c1" 7).1
          = { ({ id := "c1", client_id := "t1" } : Call) with updated_at := (7 : Int) } ∧
        (get_or_create_call ⟨[{ id := "c1", client_id := "t1" }], []⟩ "t1" "c1" 7).2.1
          = false ∧
        ((get_or_create_call ⟨[{ id := "c1", client_id := "t1" }], []⟩ "t1" "c1"
              7).2.2).countCall "c1"
          = (⟨[{ id := "c1", client_id := "t1" }], []⟩ : DB).countCall "c1") ∧
      (processEvents ⟨fun _ => none, none, false, 0⟩ "t1"
            [.generic ⟨some "c1", none, none, none, none, none, none, none, none⟩ "p" none,
             .generic ⟨some "c1", none, none, none, none, none, none, none, none⟩ "q" none]
            ⟨[], []⟩).countCall "c1" = 1 :=
  ⟨c8_single_record.1 ⟨[{ id := "c1", client_id := "t1" }], []⟩ "t1" "c1" 7
      { id := "c1", client_id := "t1" } (by decide),
   c8_single_record.2 ⟨fun _ => none, none, false, 0⟩ "t1" "c1"
      [.generic ⟨some "c1", none, none, none, none, none, none, none, none⟩ "p" none,
       .generic ⟨some "c1", none, none, none, none, none, none, none, none⟩ "q" none]
      ⟨[], []⟩ (by decide) (by decide) (by decide) (by decide)⟩

/-- C9: in `listen_proxy_websocket`, for a call that exists and has a listen
endpoint, a requester whose tenant differs from the call's tenant, or who is
neither an admin nor the call's assigned user, gets the `accessDenied`
outcome: the downstream socket is closed with close code 4003 / reason
"Access denied" — this guard runs strictly before the upstream connection is
attempted, so no upstream connection is opened and no frame is relayed. -/
theorem c9_relay_access_denied (db : DB) (cid : String) (u : UserCtx) (c : Call)
    (hget : db.getCall cid = some c) (hurl : truthy c.listen_url = true)
    (hdeny : c.client_id ≠ u.client_id ∨
      (u.role ≠ "admin" ∧ c.user_id ≠ some u.id)) :
    listen_proxy_decision (db.getCall cid) u = .accessDenied := by
  rcases hdeny with h | h
  · simp [listen_proxy_decision, hget, hurl, h]
  · by_cases ht2 : c.client_id = u.client_id
    · simp [listen_proxy_decision, hget, hurl, ht2, h.1, h.2]
    · simp [listen_proxy_decision, hget, hurl, ht2]

/-- Witness for C9: a non-admin, non-owner requester of the right tenant is
denied before any upstream connection. -/
theorem c9_relay_access_denied_witness :
    listen_proxy_decision
        ((⟨[{ id := "c1", client_id := "t1", user_id := some "alice",
              listen_url := some "wss://up" }], []⟩ : DB).getCall "c1")
        ⟨"bob", "t1", "user"⟩
      = .accessDenied :=
  c9_relay_access_denied
    ⟨[{ id := "c1", client_id := "t1", user_id := some "alice",
        listen_url := some "wss://up" }], []⟩
    "c1" ⟨"bob", "t1", "user"⟩
    { id := "c1", client_id := "t1", user_id := some "alice",
      listen_url := some "wss://up" }
    (by decide) (by decide) (Or.inr ⟨by decide, by decide⟩)

end FEPanel
